import Mathlib

/-!
Shallow embedding of `src/scripts/sync-models.js`, the model-roster
synchronization script: reading rows from a spreadsheet source (or a
built-in sample dataset), normalizing them, resolving missing photos
with placeholder URLs, persisting a JSON snapshot and computing
statistics.

Modelling conventions:
- A spreadsheet cell is `Option String`: `none` is an absent cell
  (JavaScript `undefined`), `some s` a present string value.
- JavaScript truthiness on these values: `none` and `some ""` are falsy.
- The outcome of the Google Sheets interaction (authentication, loading
  the sheet info, reading rows; lines 80-92 of the script) is a single
  `Except String (List RawRow)` value: `Except.error` is any exception
  thrown inside the `try` block, `Except.ok rows` a successful read.
- The two calls to `Math.floor(Math.random() * 1000)` made per
  photo-resolution call are modelled as a pair of natural numbers drawn
  from a stream `randoms : Nat -> Nat × Nat` indexed by the position of
  the model in the list; `Math.random()` lies in `[0, 1)`, so each drawn
  number is `< 1000`, which theorems carry as a hypothesis.
- The filesystem effect of `saveModelsToJSON` (mkdirSync + writeFileSync)
  is an `Except String Unit` outcome: `Except.error` is a thrown
  filesystem error, `Except.ok ()` a successful write.
-/

namespace SyncModels

/-- One raw row as handed to the mapping in `getModelsFromGoogleSheets`
(lines 95-116).  Each recognized column of the sheet is an optional
string cell; the script probes the lowercase header first and the
capitalized one second (for availability: `is_available` then
`available`). -/
structure RawRow where
  id : Option String := none
  ID : Option String := none
  name : Option String := none
  Name : Option String := none
  height : Option String := none
  Height : Option String := none
  measurements : Option String := none
  Measurements : Option String := none
  city : Option String := none
  City : Option String := none
  category : Option String := none
  Category : Option String := none
  bio : Option String := none
  Bio : Option String := none
  is_available : Option String := none
  available : Option String := none
  photos : Option String := none
  Photos : Option String := none
deriving Repr, DecidableEq

/-- The normalized model record built on lines 96-106 of the script. -/
structure Model where
  id : String
  name : String
  height : String
  measurements : String
  city : String
  category : String
  bio : String
  is_available : Bool
  photos : List String
deriving Repr, DecidableEq

/-- JavaScript `a || b` on an optional string cell against a string
default: a present non-empty string is truthy and taken, everything else
falls through to the default. -/
def jsOr (a : Option String) (b : String) : String :=
  match a with
  | some s => if s = "" then b else s
  | none => b

/-- JavaScript `a || b || ''`: the two-alias field lookup used for every
column of the row. -/
def jsOr2 (a b : Option String) : String :=
  jsOr a (jsOr b "")

/-- JavaScript truthiness of an optional string cell. -/
def jsTruthy (a : Option String) : Bool :=
  match a with
  | some s => !(s == "")
  | none => false

/-- JavaScript `String.prototype.trim()`: drop whitespace characters
from both ends of the string. -/
def jsTrim (s : String) : String :=
  ⟨((s.data.dropWhile Char.isWhitespace).reverse.dropWhile Char.isWhitespace).reverse⟩

/-- JavaScript `String.prototype.split(",")` on the character list: cut
at every comma, keeping empty segments (so the empty string yields one
empty segment). -/
def splitComma : List Char → List (List Char)
  | [] => [[]]
  | c :: rest =>
      match splitComma rest with
      | [] => if c = ',' then [[], []] else [[c]]
      | g :: gs => if c = ',' then [] :: g :: gs else (c :: g) :: gs

/-- JavaScript `String.prototype.split(",")` on strings. -/
def jsSplitComma (s : String) : List String :=
  (splitComma s.data).map (fun l => ⟨l⟩)

/-- The photos column parsing of lines 108-114: if the `photos`/`Photos`
cell is truthy, split it on commas, trim each token, drop empty tokens,
and use the result when non-empty; otherwise the photos list stays
empty. -/
def parsePhotos (row : RawRow) : List String :=
  if jsTruthy row.photos || jsTruthy row.Photos then
    let ps := (jsSplitComma (jsOr2 row.photos row.Photos)).map jsTrim
      |>.filter (fun p => p != "")
    if ps.length > 0 then ps else []
  else []

/-- The row-to-model mapping of lines 95-116: `id` and `name` are
coerced to strings and trimmed, the descriptive columns are taken as the
first truthy alias with no trimming, `is_available` is the negation of
either availability alias being the literal string `"false"`. -/
def normalizeRow (row : RawRow) : Model :=
  { id := jsTrim (jsOr2 row.id row.ID)
    name := jsTrim (jsOr2 row.name row.Name)
    height := jsOr2 row.height row.Height
    measurements := jsOr2 row.measurements row.Measurements
    city := jsOr2 row.city row.City
    category := jsOr2 row.category row.Category
    bio := jsOr2 row.bio row.Bio
    is_available := !(row.is_available == some "false" || row.available == some "false")
    photos := parsePhotos row }

/-- The hardcoded sample dataset of `getSampleData` (lines 164-194).
The second record has no `measurements` key in the script; the absent
key is modelled as the empty string. -/
def getSampleData : List Model :=
  [ { id := "anna_ivanova"
      name := "Анна Иванова"
      height := "175"
      measurements := "88-60-90"
      city := "Москва"
      category := "fashion"
      is_available := true
      bio := "Опыт работы 3 года. Участвовала в показах Mercedes-Benz Fashion Week."
      photos := [ "https://picsum.photos/id/1005/800/1000",
                  "https://picsum.photos/id/1011/800/1000" ] },
    { id := "maria_petrova"
      name := "Мария Петрова"
      height := "168"
      measurements := ""
      city := "Санкт-Петербург"
      category := "commercial"
      is_available := true
      bio := "Специализация: рекламные съемки, каталоги."
      photos := [ "https://picsum.photos/id/1025/800/1000",
                  "https://picsum.photos/id/1027/800/1000" ] } ]

/-- Static configuration read from the environment (lines 7-17):
the Google Sheet identifier and the Yandex Disk folder, each defaulting
to the empty string. -/
structure Config where
  googleSheetId : String
  yandexDiskFolder : String
deriving Repr, DecidableEq

/-- `getModelsFromGoogleSheets` (lines 70-123): with no sheet id
configured, return the sample data at once; otherwise run the spreadsheet
interaction, normalize and filter the rows on success, and fall back to
the sample data when any error was thrown. -/
def getModelsFromGoogleSheets (cfg : Config)
    (live : Except String (List RawRow)) : List Model :=
  if cfg.googleSheetId = "" then getSampleData
  else
    match live with
    | Except.ok rows =>
        (rows.map normalizeRow).filter (fun m => m.id != "" && m.name != "")
    | Except.error _ => getSampleData

/-- A placeholder photo URL for the given picked identifier
(lines 132-133 of the script). -/
def picsumUrl (n : Nat) : String :=
  "https://picsum.photos/id/" ++ toString n ++ "/800/1000"

/-- The claim of being a placeholder photo URL: a picsum URL whose
identifier lies in the inclusive range 0 to 999. -/
def isPlaceholderUrl (s : String) : Prop :=
  ∃ n : Nat, n ≤ 999 ∧ s = picsumUrl n

/-- `getPhotosForModel` (lines 126-141): with no Yandex Disk folder
configured, return two placeholder URLs built from the two random
draws `r1` and `r2`; with a folder configured, the provider is never
queried and the function returns the empty list. -/
def getPhotosForModel (yandexDiskFolder : String) (modelId : String)
    (r1 r2 : Nat) : List String :=
  if yandexDiskFolder = "" then [picsumUrl r1, picsumUrl r2]
  else
    let _ := modelId
    []

/-- The per-model photo step of the orchestrator loop (lines 37-43):
when the photos list is empty, call `getPhotosForModel` and assign its
result only when it is non-empty. -/
def resolvePhotos (yandexDiskFolder : String) (r1 r2 : Nat) (m : Model) : Model :=
  if m.photos.length = 0 then
    let photos := getPhotosForModel yandexDiskFolder m.id r1 r2
    if photos.length > 0 then { m with photos := photos } else m
  else m

/-- The orchestrator loop over all models (lines 32-44), threading the
position `i` of each model to pick its pair of random draws. -/
def resolveAll (yandexDiskFolder : String) (randoms : Nat → Nat × Nat) :
    Nat → List Model → List Model
  | _, [] => []
  | i, m :: rest =>
      resolvePhotos yandexDiskFolder (randoms i).1 (randoms i).2 m
        :: resolveAll yandexDiskFolder randoms (i + 1) rest

/-- The statistics record built on lines 51-56. -/
structure Stats where
  totalModels : Nat
  modelsWithPhotos : Nat
  totalPhotos : Nat
  timestamp : String
deriving Repr, DecidableEq

/-- The statistics computation of lines 51-56: total count, count of
models with a non-empty photos list, and the running sum of photo
counts. -/
def computeStats (models : List Model) (timestamp : String) : Stats :=
  { totalModels := models.length
    modelsWithPhotos := (models.filter (fun m => decide (0 < m.photos.length))).length
    totalPhotos := models.foldl (fun sum m => sum + m.photos.length) 0
    timestamp := timestamp }

/-- `saveModelsToJSON` (lines 144-161): the directory creation and the
whole-file write are the filesystem effect `fsOutcome`; a thrown
filesystem error propagates out, a successful write returns. -/
def saveModelsToJSON (fsOutcome : Except String Unit)
    (models : List Model) : Except String Unit :=
  let _ := models
  fsOutcome

/-- The ambient world of one run of the script: the configuration, the
outcome of the spreadsheet interaction, the stream of random draws, the
outcome of the filesystem write, and the completion timestamp. -/
structure Env where
  config : Config
  liveFetch : Except String (List RawRow)
  randoms : Nat → Nat × Nat
  saveResult : Except String Unit
  timestamp : String

/-- `syncModels` (lines 20-67): read the source, resolve photos per
model, save the snapshot, and return the statistics; the catch block on
lines 63-66 rethrows, so a save error propagates to the caller and no
statistics are produced. -/
def syncModels (env : Env) : Except String Stats :=
  let models := getModelsFromGoogleSheets env.config env.liveFetch
  let resolved := resolveAll env.config.yandexDiskFolder env.randoms 0 models
  match saveModelsToJSON env.saveResult resolved with
  | Except.error e => Except.error e
  | Except.ok _ => Except.ok (computeStats resolved env.timestamp)

/-- C2: the normalized availability flag is `false` exactly when one of
the two availability aliases of the raw row holds the literal string
`"false"`; every other input, including an absent cell, the string
`"true"`, or any other value, yields `true`. -/
theorem C2_is_available_iff (row : RawRow) :
    (normalizeRow row).is_available = false ↔
      (row.is_available = some "false" ∨ row.available = some "false") := by
  simp [normalizeRow]
  tauto

/-- C6: the per-model photo step leaves a model whose photos list is
already non-empty unchanged, hence running it twice on such a model
gives the same photos (and the same model) as running it once. -/
theorem C6_resolve_idempotent (yandexDiskFolder : String) (r1 r2 r3 r4 : Nat)
    (m : Model) (h : m.photos ≠ []) :
    resolvePhotos yandexDiskFolder r1 r2 m = m ∧
      resolvePhotos yandexDiskFolder r3 r4 (resolvePhotos yandexDiskFolder r1 r2 m)
        = resolvePhotos yandexDiskFolder r1 r2 m := by
  have h1 : resolvePhotos yandexDiskFolder r1 r2 m = m := by
    simp [resolvePhotos, List.length_eq_zero, h]
  have h2 : resolvePhotos yandexDiskFolder r3 r4 m = m := by
    simp [resolvePhotos, List.length_eq_zero, h]
  rw [h1]
  exact ⟨rfl, h2⟩

/-- C6 witness: the step fixes a concrete model carrying one photo. -/
theorem C6_resolve_idempotent_witness :
    (⟨"a", "A", "", "", "", "", "", true, ["p"]⟩ : Model).photos ≠ [] ∧
      (resolvePhotos "" 1 2 ⟨"a", "A", "", "", "", "", "", true, ["p"]⟩
          = ⟨"a", "A", "", "", "", "", "", true, ["p"]⟩ ∧
        resolvePhotos "" 3 4 (resolvePhotos "" 1 2 ⟨"a", "A", "", "", "", "", "", true, ["p"]⟩)
          = resolvePhotos "" 1 2 ⟨"a", "A", "", "", "", "", "", true, ["p"]⟩) :=
  ⟨by decide, C6_resolve_idempotent "" 1 2 3 4 _ (by decide)⟩

/-- C4: with no photo folder configured, resolving a model with an empty
photos list assigns exactly two photo URLs, each a placeholder picsum
URL whose identifier lies in the range 0 to 999; the hypotheses `r1 <
1000` and `r2 < 1000` record the range of the two
`Math.floor(Math.random() * 1000)` draws. -/
theorem C4_placeholder_photos (m : Model) (r1 r2 : Nat)
    (h1 : r1 < 1000) (h2 : r2 < 1000) (hm : m.photos = []) :
    (resolvePhotos "" r1 r2 m).photos.length = 2 ∧
      ∀ p ∈ (resolvePhotos "" r1 r2 m).photos, isPlaceholderUrl p := by
  constructor
  · simp [resolvePhotos, getPhotosForModel, hm]
  · intro p hp
    simp [resolvePhotos, getPhotosForModel, hm] at hp
    rcases hp with h | h
    · exact ⟨r1, by omega, h⟩
    · exact ⟨r2, by omega, h⟩

/-- C4 witness: a concrete model with no photos receives two placeholder
URLs from the draws 5 and 7. -/
theorem C4_placeholder_photos_witness :
    (5 : Nat) < 1000 ∧ (7 : Nat) < 1000 ∧
      (⟨"a", "A", "", "", "", "", "", true, []⟩ : Model).photos = [] ∧
      ((resolvePhotos "" 5 7 ⟨"a", "A", "", "", "", "", "", true, []⟩).photos.length = 2 ∧
        ∀ p ∈ (resolvePhotos "" 5 7 ⟨"a", "A", "", "", "", "", "", true, []⟩).photos,
          isPlaceholderUrl p) :=
  ⟨by decide, by decide, rfl,
    C4_placeholder_photos ⟨"a", "A", "", "", "", "", "", true, []⟩ 5 7
      (by decide) (by decide) rfl⟩

/-- C10: with a photo folder configured, the photo lookup returns the
empty list for every model id, so a model that entered resolution with
an empty photos list still has an empty photos list, and the whole
resolution pass leaves every list of models unchanged, hence so does the
persisted snapshot. -/
theorem C10_folder_no_photos (yandexDiskFolder modelId : String)
    (hf : yandexDiskFolder ≠ "") (r1 r2 : Nat) (m : Model) (hm : m.photos = [])
    (randoms : Nat → Nat × Nat) (i : Nat) (models : List Model) :
    getPhotosForModel yandexDiskFolder modelId r1 r2 = [] ∧
      (resolvePhotos yandexDiskFolder r1 r2 m).photos = [] ∧
      resolveAll yandexDiskFolder randoms i models = models := by
  have hg : ∀ mid a b, getPhotosForModel yandexDiskFolder mid a b = [] := by
    intro mid a b
    simp [getPhotosForModel, hf]
  have hr : ∀ a b (x : Model), resolvePhotos yandexDiskFolder a b x = x := by
    intro a b x
    simp [resolvePhotos, hg]
  refine ⟨hg modelId r1 r2, ?_, ?_⟩
  · rw [hr]
    exact hm
  · induction models generalizing i with
    | nil => rfl
    | cons x rest ih => simp [resolveAll, hr, ih]

/-- C10 witness: with the folder set to a concrete non-empty string, the
lookup is empty, a photo-less model stays photo-less, and a concrete
list of models passes through resolution unchanged. -/
theorem C10_folder_no_photos_witness :
    ("disk" : String) ≠ "" ∧
      (⟨"a", "A", "", "", "", "", "", true, []⟩ : Model).photos = [] ∧
      (getPhotosForModel "disk" "a" 0 0 = [] ∧
        (resolvePhotos "disk" 0 0 ⟨"a", "A", "", "", "", "", "", true, []⟩).photos = [] ∧
        resolveAll "disk" (fun _ => (0, 0)) 0 [⟨"a", "A", "", "", "", "", "", true, []⟩]
          = [⟨"a", "A", "", "", "", "", "", true, []⟩]) :=
  ⟨by decide, rfl,
    C10_folder_no_photos "disk" "a" (by decide) 0 0 _ rfl (fun _ => (0, 0)) 0 _⟩

/-- C3: every model returned by the source reader, on any configuration
and any outcome of the live read, has a non-empty id and a non-empty
name; rows whose id or name is empty after trimming produce no model. -/
theorem C3_no_empty_id_or_name (cfg : Config) (live : Except String (List RawRow))
    (m : Model) (hm : m ∈ getModelsFromGoogleSheets cfg live) :
    m.id ≠ "" ∧ m.name ≠ "" := by
  have hsample : ∀ x ∈ getSampleData, x.id ≠ "" ∧ x.name ≠ "" := by
    intro x hx
    simp [getSampleData] at hx
    rcases hx with rfl | rfl <;> exact ⟨by decide, by decide⟩
  unfold getModelsFromGoogleSheets at hm
  by_cases h : cfg.googleSheetId = ""
  · rw [if_pos h] at hm
    exact hsample m hm
  · rw [if_neg h] at hm
    cases live with
    | error e => exact hsample m hm
    | ok rows =>
      have := (List.mem_filter.mp hm).2
      simpa using this

/-- C3 witness: the normalization of a concrete row with id "a" and
name "b" appears in the live output and has non-empty id and name. -/
theorem C3_no_empty_id_or_name_witness :
    (normalizeRow { id := some "a", name := some "b" }).id ≠ "" ∧
      (normalizeRow { id := some "a", name := some "b" }).name ≠ "" :=
  C3_no_empty_id_or_name ⟨"sheet", ""⟩
    (Except.ok [{ id := some "a", name := some "b" }]) _ (by
      simp [getModelsFromGoogleSheets]
      decide)

/-- Helper: counting models through the boolean test `0 < photos.length`
agrees with counting through `photos ≠ []`. -/
theorem filter_pos_length_eq_filter_ne_nil (l : List Model) :
    (l.filter (fun m => decide (0 < m.photos.length))).length
      = (l.filter (fun m => decide (m.photos ≠ []))).length := by
  induction l with
  | nil => rfl
  | cons m rest ih =>
    cases hp : m.photos <;> simp [List.filter_cons, hp, ih]

/-- Helper: the running-sum fold of photo counts equals the accumulator
plus the sum of the photo counts. -/
theorem foldl_photos_eq_sum (l : List Model) (n : Nat) :
    l.foldl (fun sum m => sum + m.photos.length) n
      = n + (l.map (fun m => m.photos.length)).sum := by
  induction l generalizing n with
  | nil => simp
  | cons m rest ih => simp [List.foldl_cons, ih, Nat.add_assoc]

/-- C5: the statistics report the total number of models, the number of
models with at least one photo, and the sum of all photo counts; in
particular three models of which exactly two have photo lists of lengths
2 and 3 yield totals 3, 2 and 5. -/
theorem C5_stats (models : List Model) (ts : String) :
    (computeStats models ts).totalModels = models.length ∧
      (computeStats models ts).modelsWithPhotos
        = (models.filter (fun m => decide (m.photos ≠ []))).length ∧
      (computeStats models ts).totalPhotos
        = (models.map (fun m => m.photos.length)).sum ∧
      computeStats
          [ ⟨"a", "A", "", "", "", "", "", true, []⟩,
            ⟨"b", "B", "", "", "", "", "", true, ["p1", "p2"]⟩,
            ⟨"c", "C", "", "", "", "", "", true, ["q1", "q2", "q3"]⟩ ] ts
        = ⟨3, 2, 5, ts⟩ := by
  refine ⟨rfl, ?_, ?_, rfl⟩
  · exact filter_pos_length_eq_filter_ne_nil models
  · have := foldl_photos_eq_sum models 0
    simpa [computeStats] using this

/-- C9 counterexample: the claim that every string field of the
normalized model is trimmed fails: a row whose height cell is " 175 "
normalizes to a model whose height keeps the surrounding whitespace. -/
theorem C9_counterexample :
    (normalizeRow { id := some "a", name := some "b", height := some " 175 " }).height
        = " 175 " ∧
      (normalizeRow { id := some "a", name := some "b", height := some " 175 " }).height
        ≠ jsTrim (normalizeRow { id := some "a", name := some "b", height := some " 175 " }).height := by
  exact ⟨rfl, by decide⟩

/-- C9 amended: only the id and name fields of the normalized model are
trimmed; height, measurements, city, category and bio are the first
truthy alias taken verbatim, and an absent field (both aliases falsy)
coerces to the empty string rather than failing. -/
theorem C9_amended_trimming (row : RawRow) :
    (normalizeRow row).id = jsTrim (jsOr2 row.id row.ID) ∧
      (normalizeRow row).name = jsTrim (jsOr2 row.name row.Name) ∧
      (normalizeRow row).height = jsOr2 row.height row.Height ∧
      (normalizeRow row).measurements = jsOr2 row.measurements row.Measurements ∧
      (normalizeRow row).city = jsOr2 row.city row.City ∧
      (normalizeRow row).category = jsOr2 row.category row.Category ∧
      (normalizeRow row).bio = jsOr2 row.bio row.Bio ∧
      jsOr2 none none = "" ∧
      (normalizeRow ({} : RawRow)).height = "" ∧
      (normalizeRow ({} : RawRow)).measurements = "" ∧
      (normalizeRow ({} : RawRow)).city = "" ∧
      (normalizeRow ({} : RawRow)).category = "" ∧
      (normalizeRow ({} : RawRow)).bio = "" :=
  ⟨rfl, rfl, rfl, rfl, rfl, rfl, rfl, rfl, rfl, rfl, rfl, rfl, rfl⟩

/-- C1: with a live source identifier configured, any error thrown while
reading the live source is caught inside the source reader, which
returns the built-in offline dataset instead, and the run completes
successfully provided the snapshot write succeeds. -/
theorem C1_live_error_falls_back (env : Env) (msg : String)
    (hid : env.config.googleSheetId ≠ "")
    (herr : env.liveFetch = Except.error msg)
    (hsave : env.saveResult = Except.ok ()) :
    getModelsFromGoogleSheets env.config env.liveFetch = getSampleData ∧
      ∃ s, syncModels env = Except.ok s := by
  have hread : getModelsFromGoogleSheets env.config env.liveFetch = getSampleData := by
    rw [herr]
    simp [getModelsFromGoogleSheets, hid]
  refine ⟨hread, computeStats
      (resolveAll env.config.yandexDiskFolder env.randoms 0 getSampleData)
      env.timestamp, ?_⟩
  simp [syncModels, saveModelsToJSON, hsave, hread]

/-- C1 witness: a run over a concrete environment whose live read throws
still returns successfully on the offline dataset. -/
theorem C1_live_error_falls_back_witness :
    (Env.mk ⟨"sheet", ""⟩ (Except.error "auth failed") (fun _ => (0, 0))
          (Except.ok ()) "t").config.googleSheetId ≠ "" ∧
      (Env.mk ⟨"sheet", ""⟩ (Except.error "auth failed") (fun _ => (0, 0))
          (Except.ok ()) "t").liveFetch = Except.error "auth failed" ∧
      (Env.mk ⟨"sheet", ""⟩ (Except.error "auth failed") (fun _ => (0, 0))
          (Except.ok ()) "t").saveResult = Except.ok () ∧
      (getModelsFromGoogleSheets
          (Env.mk ⟨"sheet", ""⟩ (Except.error "auth failed") (fun _ => (0, 0))
            (Except.ok ()) "t").config
          (Env.mk ⟨"sheet", ""⟩ (Except.error "auth failed") (fun _ => (0, 0))
            (Except.ok ()) "t").liveFetch = getSampleData ∧
        ∃ s, syncModels (Env.mk ⟨"sheet", ""⟩ (Except.error "auth failed")
            (fun _ => (0, 0)) (Except.ok ()) "t") = Except.ok s) :=
  ⟨by decide, rfl, rfl,
    C1_live_error_falls_back _ "auth failed" (by decide) rfl rfl⟩

/-- C7: with no source identifier configured, the source reader returns
exactly the offline dataset, which has two models, each with non-empty
id, name and photos; photo resolution leaves the dataset unchanged, and
a run whose write succeeds returns the statistics of exactly that
dataset. -/
theorem C7_offline_dataset (env : Env)
    (hid : env.config.googleSheetId = "")
    (hsave : env.saveResult = Except.ok ()) :
    getModelsFromGoogleSheets env.config env.liveFetch = getSampleData ∧
      2 ≤ getSampleData.length ∧
      (∀ m ∈ getSampleData, m.id ≠ "" ∧ m.name ≠ "" ∧ m.photos ≠ []) ∧
      resolveAll env.config.yandexDiskFolder env.randoms 0 getSampleData
        = getSampleData ∧
      syncModels env = Except.ok (computeStats getSampleData env.timestamp) := by
  have hread : getModelsFromGoogleSheets env.config env.liveFetch = getSampleData := by
    simp [getModelsFromGoogleSheets, hid]
  have hres : resolveAll env.config.yandexDiskFolder env.randoms 0 getSampleData
      = getSampleData := rfl
  refine ⟨hread, by decide, ?_, hres, ?_⟩
  · intro m hm
    simp [getSampleData] at hm
    rcases hm with rfl | rfl <;> exact ⟨by decide, by decide, by decide⟩
  · simp [syncModels, saveModelsToJSON, hsave, hread, hres]

/-- C7 witness: a concrete run with no sheet id configured produces the
offline dataset end to end. -/
theorem C7_offline_dataset_witness :
    (Env.mk ⟨"", ""⟩ (Except.ok []) (fun _ => (0, 0)) (Except.ok ()) "t").config.googleSheetId
        = "" ∧
      (Env.mk ⟨"", ""⟩ (Except.ok []) (fun _ => (0, 0)) (Except.ok ()) "t").saveResult
        = Except.ok () ∧
      (getModelsFromGoogleSheets
          (Env.mk ⟨"", ""⟩ (Except.ok []) (fun _ => (0, 0)) (Except.ok ()) "t").config
          (Env.mk ⟨"", ""⟩ (Except.ok []) (fun _ => (0, 0)) (Except.ok ()) "t").liveFetch
          = getSampleData ∧
        2 ≤ getSampleData.length ∧
        (∀ m ∈ getSampleData, m.id ≠ "" ∧ m.name ≠ "" ∧ m.photos ≠ []) ∧
        resolveAll "" (fun _ => (0, 0)) 0 getSampleData = getSampleData ∧
        syncModels (Env.mk ⟨"", ""⟩ (Except.ok []) (fun _ => (0, 0)) (Except.ok ()) "t")
          = Except.ok (computeStats getSampleData "t")) :=
  ⟨rfl, rfl, C7_offline_dataset _ rfl rfl⟩

/-- C8: when the filesystem write fails, the error propagates out of the
run as its result: the orchestrator returns that error to its caller and
produces no statistics. -/
theorem C8_save_error_propagates (env : Env) (msg : String)
    (hsave : env.saveResult = Except.error msg) :
    syncModels env = Except.error msg ∧
      ∀ s, syncModels env ≠ Except.ok s := by
  have h : syncModels env = Except.error msg := by
    simp [syncModels, saveModelsToJSON, hsave]
  exact ⟨h, fun s hs => by rw [h] at hs; exact Except.noConfusion hs⟩

/-- C8 witness: a concrete run whose write throws reports exactly that
error and no statistics. -/
theorem C8_save_error_propagates_witness :
    (Env.mk ⟨"", ""⟩ (Except.ok []) (fun _ => (0, 0)) (Except.error "disk full") "t").saveResult
        = Except.error "disk full" ∧
      (syncModels (Env.mk ⟨"", ""⟩ (Except.ok []) (fun _ => (0, 0))
            (Except.error "disk full") "t") = Except.error "disk full" ∧
        ∀ s, syncModels (Env.mk ⟨"", ""⟩ (Except.ok []) (fun _ => (0, 0))
            (Except.error "disk full") "t") ≠ Except.ok s) :=
  ⟨rfl, C8_save_error_propagates _ "disk full" rfl⟩

end SyncModels
